import Mathlib

/-!
Verification of the deterministic core of the cognitive self-assessment
application (`src/app/app.py`): the cognitive score calculator, the
categorical input encoder, the decision feature vector builder, and the
cluster label lookup table.  The pre-trained models are opaque external
collaborators; only the pure Python functions around them are embedded.
-/

/-- The raw form input: five categorical answers (strings chosen from
fixed select boxes) and six bounded integer sliders, mirroring the
module-level variables `work_interfere`, `mental_consequence`,
`treatment`, `benefits`, `care_options`, `daily_screen_time`,
`sleep_hours`, `focus_score`, `mood_score`, `anxiety_level`,
`digital_wellbeing` of `app.py`. -/
structure RawSurveyInput where
  work_interfere : String
  mental_consequence : String
  treatment : String
  benefits : String
  care_options : String
  daily_screen_time : Int
  sleep_hours : Int
  focus_score : Int
  mood_score : Int
  anxiety_level : Int
  digital_wellbeing : Int
deriving Repr, DecidableEq

/-- The option list of the `work_interfere` select box (`app.py` line 76). -/
def workInterfereOptions : List String := ["Never", "Rarely", "Sometimes", "Often"]

/-- The option list shared by the four yes/no select boxes
(`mental_consequence`, `treatment`, `benefits`, `care_options`). -/
def yesNoOptions : List String := ["No", "Yes"]

/-- Model of Python `list.index(x)` on a list of strings: the position of
the first occurrence of `x`, or `none` where Python raises `ValueError`
because `x` is not a member. -/
def listIndex : List String → String → Option Nat
  | [], _ => none
  | y :: ys, x => if y = x then some 0 else (listIndex ys x).map (· + 1)

/-- The running sum built by `compute_cognitive_score` before the final
`min(int(score), 100)` clamp (`app.py` lines 112-117). -/
def cognitive_score_unclamped (i : RawSurveyInput) : Int :=
  let score : Int := 0
  let score := score + (10 - i.anxiety_level) * 5
  let score := score + i.focus_score * 5
  let score := score + i.mood_score * 3
  let score := score + i.sleep_hours * 4
  let score := score + i.digital_wellbeing * 3
  score

/-- `compute_cognitive_score` (`app.py` lines 111-118): the weighted sum
of the five wellbeing sliders, clamped above at 100. -/
def compute_cognitive_score (i : RawSurveyInput) : Int :=
  min (cognitive_score_unclamped i) 100

/-- `encode_cognitive_input` (`app.py` lines 123-136): the single-row
record fed to the clustering scaler, as the ordered list of column
name / value pairs of the Python dict literal.  Each categorical field
is encoded with `list.index`; a label outside its option list makes the
whole call fail (Python `ValueError`, here `none`). -/
def encode_cognitive_input (i : RawSurveyInput) : Option (List (String × Int)) :=
  match listIndex workInterfereOptions i.work_interfere,
        listIndex yesNoOptions i.mental_consequence,
        listIndex yesNoOptions i.treatment,
        listIndex yesNoOptions i.benefits,
        listIndex yesNoOptions i.care_options with
  | some wi, some mc, some tr, some be, some co =>
      some [("work_interfere", (wi : Int)),
            ("mental_health_consequence", (mc : Int)),
            ("treatment", (tr : Int)),
            ("benefits", (be : Int)),
            ("care_options", (co : Int)),
            ("daily_screen_time_min", i.daily_screen_time),
            ("sleep_hours", i.sleep_hours),
            ("focus_score", i.focus_score),
            ("mood_score", i.mood_score),
            ("anxiety_level", i.anxiety_level),
            ("digital_wellbeing_score", i.digital_wellbeing)]
  | _, _, _, _, _ => none

/-- The `base` array of `build_decision_vector` (`app.py` lines 142-149):
the six numeric inputs in their fixed order. -/
def decision_base (i : RawSurveyInput) : List Int :=
  [i.daily_screen_time, i.sleep_hours, i.focus_score, i.mood_score,
   i.anxiety_level, i.digital_wellbeing]

/-- `build_decision_vector` (`app.py` lines 141-156): the base vector
right-padded with zeros up to `decision_feature_count` when it is longer
than 6, otherwise truncated to its first `decision_feature_count`
entries.  The final `reshape(1, -1)` only changes the array shape, not
the entries, so the row is modelled as the list itself. -/
def build_decision_vector (i : RawSurveyInput) (decision_feature_count : Nat) : List Int :=
  let base := decision_base i
  if base.length < decision_feature_count then
    base ++ List.replicate (decision_feature_count - base.length) 0
  else
    base.take decision_feature_count

/-- The `cluster_map` dict of `app.py` lines 177-181, accessed with
`dict.get(id)` and no default (`app.py` line 184), so an unknown id
yields Python `None`, here `none`. -/
def cluster_map (id : Int) : Option String :=
  if id = 0 then some "Balanced Cognitive State"
  else if id = 1 then some "High Cognitive Load & Anxiety"
  else if id = 2 then some "Low Focus & Digital Fatigue"
  else none

/-- The declared bounds of the eleven form fields: each select box value
is a member of its option list and each slider value lies in the range
the slider declares (`app.py` lines 74-106). -/
def ValidInput (i : RawSurveyInput) : Prop :=
  i.work_interfere ∈ workInterfereOptions ∧
  i.mental_consequence ∈ yesNoOptions ∧
  i.treatment ∈ yesNoOptions ∧
  i.benefits ∈ yesNoOptions ∧
  i.care_options ∈ yesNoOptions ∧
  30 ≤ i.daily_screen_time ∧ i.daily_screen_time ≤ 900 ∧
  3 ≤ i.sleep_hours ∧ i.sleep_hours ≤ 10 ∧
  1 ≤ i.focus_score ∧ i.focus_score ≤ 10 ∧
  1 ≤ i.mood_score ∧ i.mood_score ≤ 10 ∧
  1 ≤ i.anxiety_level ∧ i.anxiety_level ≤ 10 ∧
  1 ≤ i.digital_wellbeing ∧ i.digital_wellbeing ≤ 10

instance (i : RawSurveyInput) : Decidable (ValidInput i) := by
  unfold ValidInput; infer_instance

/-- The slider-default input of concrete scenario 1: anxiety 4, focus 6,
mood 6, sleep 7, wellbeing 6, screen time 300. -/
def exInput1 : RawSurveyInput :=
  ⟨"Never", "No", "No", "No", "No", 300, 7, 6, 6, 4, 6⟩

/-- The minimum-score input of concrete scenario 2: anxiety 10, focus 1,
mood 1, sleep 3, wellbeing 1. -/
def exInput2 : RawSurveyInput :=
  ⟨"Never", "No", "No", "No", "No", 30, 3, 1, 1, 10, 1⟩

/-- An input whose `work_interfere` label is outside its option list. -/
def badCategoryInput : RawSurveyInput :=
  ⟨"Banana", "No", "No", "No", "No", 300, 7, 6, 6, 4, 6⟩

theorem listIndex_eq_none_of_not_mem (xs : List String) (x : String) (h : x ∉ xs) :
    listIndex xs x = none := by
  induction xs with
  | nil => rfl
  | cons y ys ih =>
    simp only [List.mem_cons, not_or] at h
    obtain ⟨h1, h2⟩ := h
    have hne : ¬y = x := fun e => h1 e.symm
    simp [listIndex, hne, ih h2]

theorem listIndex_mem_some (xs : List String) (x : String) (h : x ∈ xs) :
    ∃ k, listIndex xs x = some k := by
  induction xs with
  | nil => simp at h
  | cons y ys ih =>
    by_cases hyx : y = x
    · exact ⟨0, by simp [listIndex, hyx]⟩
    · have hx : x ∈ ys := by
        rcases List.mem_cons.mp h with h | h
        · exact absurd h.symm hyx
        · exact h
      obtain ⟨k, hk⟩ := ih hx
      exact ⟨k + 1, by simp [listIndex, hyx, hk]⟩

/-- C1: the cognitive score is the weighted sum
`(10 - anxiety_level)*5 + focus_score*5 + mood_score*3 + sleep_hours*4 +
digital_wellbeing*3` clamped above at 100; on scenario 1
(anxiety 4, focus 6, mood 6, sleep 7, wellbeing 6) the unclamped value is
124 and the returned score is 100, and on scenario 2
(anxiety 10, focus 1, mood 1, sleep 3, wellbeing 1) the score is 23. -/
theorem cognitive_score_formula_and_scenarios :
    (∀ i : RawSurveyInput,
        cognitive_score_unclamped i =
          (10 - i.anxiety_level) * 5 + i.focus_score * 5 + i.mood_score * 3 +
            i.sleep_hours * 4 + i.digital_wellbeing * 3) ∧
    (∀ i : RawSurveyInput,
        compute_cognitive_score i = min (cognitive_score_unclamped i) 100) ∧
    cognitive_score_unclamped exInput1 = 124 ∧
    compute_cognitive_score exInput1 = 100 ∧
    compute_cognitive_score exInput2 = 23 := by
  refine ⟨fun i => ?_, fun i => rfl, by decide, by decide, by decide⟩
  simp [cognitive_score_unclamped]

/-- C3: for every input within the declared bounds the returned cognitive
score lies in [0, 100]. -/
theorem cognitive_score_in_range (i : RawSurveyInput) (h : ValidInput i) :
    0 ≤ compute_cognitive_score i ∧ compute_cognitive_score i ≤ 100 := by
  obtain ⟨-, -, -, -, -, h⟩ := h
  simp only [compute_cognitive_score, cognitive_score_unclamped] at *
  omega

theorem cognitive_score_in_range_witness :
    0 ≤ compute_cognitive_score exInput1 ∧ compute_cognitive_score exInput1 ≤ 100 :=
  cognitive_score_in_range exInput1 (by decide)

/-- C10: for every input within the declared bounds the unclamped score is
at least 23, hence the returned score always lies in [23, 100] and a lower
clamp at 0 would never fire. -/
theorem cognitive_score_lower_bound (i : RawSurveyInput) (h : ValidInput i) :
    23 ≤ cognitive_score_unclamped i ∧
    23 ≤ compute_cognitive_score i ∧ compute_cognitive_score i ≤ 100 := by
  obtain ⟨-, -, -, -, -, h⟩ := h
  simp only [compute_cognitive_score, cognitive_score_unclamped] at *
  omega

theorem cognitive_score_lower_bound_witness :
    23 ≤ cognitive_score_unclamped exInput2 ∧
    23 ≤ compute_cognitive_score exInput2 ∧ compute_cognitive_score exInput2 ≤ 100 :=
  cognitive_score_lower_bound exInput2 (by decide)

/-- C9: the cluster label lookup is a total function (it never fails), and
every id outside {0, 1, 2} yields no label at all (`dict.get` with no
default returns Python `None`), which is the value handed to the result
display. -/
theorem cluster_map_unknown_is_none (id : Int)
    (h : id ∉ ([0, 1, 2] : List Int)) : cluster_map id = none := by
  simp only [List.mem_cons, not_or] at h
  obtain ⟨h0, h1, h2, -⟩ := h
  simp [cluster_map, h0, h1, h2]

theorem cluster_map_unknown_is_none_witness : cluster_map 5 = none :=
  cluster_map_unknown_is_none 5 (by decide)

/-- C2 counterexample: cluster id 5 does not map to the fallback label
"Unrecognized Profile"; the lookup yields no label at all. -/
theorem cluster_map_no_fallback_label_cex :
    cluster_map 5 ≠ some "Unrecognized Profile" := by
  decide

/-- C2 amended: an unknown cluster id never makes the lookup raise, but
the surfaced value is Python `None` (no label), not a fallback string;
in particular the label "Unrecognized Profile" appears for no id. -/
theorem cluster_map_unknown_yields_no_label :
    cluster_map 5 = none ∧
    ∀ (id : Int) (s : String), cluster_map id = some s → s ≠ "Unrecognized Profile" := by
  refine ⟨by decide, fun id s h => ?_⟩
  simp only [cluster_map] at h
  split at h
  · cases h; decide
  · split at h
    · cases h; decide
    · split at h
      · cases h; decide
      · cases h

theorem cluster_map_unknown_yields_no_label_witness :
    cluster_map 5 = none ∧ "Balanced Cognitive State" ≠ "Unrecognized Profile" :=
  ⟨cluster_map_unknown_yields_no_label.1,
   cluster_map_unknown_yields_no_label.2 0 "Balanced Cognitive State" (by decide)⟩

/-- C4: holding the other inputs fixed and within bounds, the cognitive
score is non-decreasing in `focus_score`, `mood_score`, `sleep_hours` and
`digital_wellbeing`, and non-increasing in `anxiety_level`. -/
theorem cognitive_score_monotone :
    (∀ (i : RawSurveyInput) (x y : Int), x ≤ y →
        ValidInput {i with focus_score := x} → ValidInput {i with focus_score := y} →
        compute_cognitive_score {i with focus_score := x} ≤
          compute_cognitive_score {i with focus_score := y}) ∧
    (∀ (i : RawSurveyInput) (x y : Int), x ≤ y →
        ValidInput {i with mood_score := x} → ValidInput {i with mood_score := y} →
        compute_cognitive_score {i with mood_score := x} ≤
          compute_cognitive_score {i with mood_score := y}) ∧
    (∀ (i : RawSurveyInput) (x y : Int), x ≤ y →
        ValidInput {i with sleep_hours := x} → ValidInput {i with sleep_hours := y} →
        compute_cognitive_score {i with sleep_hours := x} ≤
          compute_cognitive_score {i with sleep_hours := y}) ∧
    (∀ (i : RawSurveyInput) (x y : Int), x ≤ y →
        ValidInput {i with digital_wellbeing := x} → ValidInput {i with digital_wellbeing := y} →
        compute_cognitive_score {i with digital_wellbeing := x} ≤
          compute_cognitive_score {i with digital_wellbeing := y}) ∧
    (∀ (i : RawSurveyInput) (x y : Int), x ≤ y →
        ValidInput {i with anxiety_level := x} → ValidInput {i with anxiety_level := y} →
        compute_cognitive_score {i with anxiety_level := y} ≤
          compute_cognitive_score {i with anxiety_level := x}) := by
  refine ⟨?_, ?_, ?_, ?_, ?_⟩ <;>
    intro i x y hxy h1 h2 <;>
    simp only [compute_cognitive_score, cognitive_score_unclamped] <;>
    omega

theorem cognitive_score_monotone_witness :
    compute_cognitive_score {exInput1 with focus_score := 5} ≤
      compute_cognitive_score {exInput1 with focus_score := 6} :=
  cognitive_score_monotone.1 exInput1 5 6 (by decide) (by decide) (by decide)

/-- C5: the decision vector always has length exactly
`decision_feature_count`; it is the base list right-padded with zeros when
the count exceeds 6 and its first `decision_feature_count` entries when
the count is at most 6; with base inputs [300, 7, 6, 6, 4, 6], count 4
yields [300, 7, 6, 6] and count 8 yields [300, 7, 6, 6, 4, 6, 0, 0]. -/
theorem decision_vector_shape :
    (∀ (i : RawSurveyInput) (n : Nat), (build_decision_vector i n).length = n) ∧
    (∀ (i : RawSurveyInput) (n : Nat), 6 ≤ n →
        build_decision_vector i n = decision_base i ++ List.replicate (n - 6) 0) ∧
    (∀ (i : RawSurveyInput) (n : Nat), n ≤ 6 →
        build_decision_vector i n = (decision_base i).take n) ∧
    build_decision_vector exInput1 4 = [300, 7, 6, 6] ∧
    build_decision_vector exInput1 8 = [300, 7, 6, 6, 4, 6, 0, 0] := by
  have hlen : ∀ i : RawSurveyInput, (decision_base i).length = 6 := fun i => rfl
  refine ⟨?_, ?_, ?_, by decide, by decide⟩
  · intro i n
    simp only [build_decision_vector]
    split <;> simp_all <;> omega
  · intro i n h
    simp only [build_decision_vector]
    rw [hlen i]
    split
    · rfl
    · have hn : n = 6 := by omega
      subst hn
      simp [decision_base]
  · intro i n h
    simp only [build_decision_vector]
    rw [hlen i]
    split
    · omega
    · rfl

theorem decision_vector_shape_witness :
    build_decision_vector exInput2 7 = decision_base exInput2 ++ List.replicate (7 - 6) 0 :=
  decision_vector_shape.2.1 exInput2 7 (by decide)

/-- C6: ordinal encoding is the label's position in its fixed category
list and round-trips through list indexing, for every label of each of
the five categorical fields; in particular "Never" encodes to 0, "Often"
to 3, "No" to 0 and "Yes" to 1. -/
theorem categorical_encoding_round_trip :
    (∀ xs ∈ [workInterfereOptions, yesNoOptions, yesNoOptions, yesNoOptions, yesNoOptions],
        ∀ l ∈ xs, (listIndex xs l).bind (fun k => xs[k]?) = some l) ∧
    listIndex workInterfereOptions "Never" = some 0 ∧
    listIndex workInterfereOptions "Often" = some 3 ∧
    listIndex yesNoOptions "No" = some 0 ∧
    listIndex yesNoOptions "Yes" = some 1 := by
  decide

theorem categorical_encoding_round_trip_witness :
    (listIndex workInterfereOptions "Often").bind (fun k => workInterfereOptions[k]?) =
      some "Often" :=
  categorical_encoding_round_trip.1 workInterfereOptions (by decide) "Often" (by decide)

/-- C7: the encoder fails (Python `ValueError`, modelled as `none`) when
any of the five categorical labels is outside the field's declared option
list, rather than silently defaulting to an ordinal code. -/
theorem encode_rejects_invalid_category (i : RawSurveyInput)
    (h : i.work_interfere ∉ workInterfereOptions ∨
         i.mental_consequence ∉ yesNoOptions ∨
         i.treatment ∉ yesNoOptions ∨
         i.benefits ∉ yesNoOptions ∨
         i.care_options ∉ yesNoOptions) :
    encode_cognitive_input i = none := by
  unfold encode_cognitive_input
  rcases h with h | h | h | h | h <;>
    rw [listIndex_eq_none_of_not_mem _ _ h] <;>
    cases listIndex workInterfereOptions i.work_interfere <;>
    cases listIndex yesNoOptions i.mental_consequence <;>
    cases listIndex yesNoOptions i.treatment <;>
    cases listIndex yesNoOptions i.benefits <;>
    cases listIndex yesNoOptions i.care_options <;>
    rfl

theorem encode_rejects_invalid_category_witness :
    encode_cognitive_input badCategoryInput = none :=
  encode_rejects_invalid_category badCategoryInput (Or.inl (by decide))

/-- C8: on every valid input the encoder succeeds, and whenever the five
ordinal codes are produced the record is exactly the eleven named fields
in the fixed order `work_interfere, mental_health_consequence, treatment,
benefits, care_options, daily_screen_time_min, sleep_hours, focus_score,
mood_score, anxiety_level, digital_wellbeing_score`, the first five
holding the ordinal codes and the last six the raw numeric inputs. -/
theorem encode_record_fields :
    (∀ i : RawSurveyInput, ValidInput i → (encode_cognitive_input i).isSome = true) ∧
    (∀ (i : RawSurveyInput) (wi mc tr be co : Nat),
        listIndex workInterfereOptions i.work_interfere = some wi →
        listIndex yesNoOptions i.mental_consequence = some mc →
        listIndex yesNoOptions i.treatment = some tr →
        listIndex yesNoOptions i.benefits = some be →
        listIndex yesNoOptions i.care_options = some co →
        encode_cognitive_input i =
          some [("work_interfere", (wi : Int)),
                ("mental_health_consequence", (mc : Int)),
                ("treatment", (tr : Int)),
                ("benefits", (be : Int)),
                ("care_options", (co : Int)),
                ("daily_screen_time_min", i.daily_screen_time),
                ("sleep_hours", i.sleep_hours),
                ("focus_score", i.focus_score),
                ("mood_score", i.mood_score),
                ("anxiety_level", i.anxiety_level),
                ("digital_wellbeing_score", i.digital_wellbeing)]) := by
  constructor
  · intro i h
    obtain ⟨h1, h2, h3, h4, h5, -⟩ := h
    obtain ⟨k1, e1⟩ := listIndex_mem_some _ _ h1
    obtain ⟨k2, e2⟩ := listIndex_mem_some _ _ h2
    obtain ⟨k3, e3⟩ := listIndex_mem_some _ _ h3
    obtain ⟨k4, e4⟩ := listIndex_mem_some _ _ h4
    obtain ⟨k5, e5⟩ := listIndex_mem_some _ _ h5
    unfold encode_cognitive_input
    rw [e1, e2, e3, e4, e5]
    rfl
  · intro i wi mc tr be co e1 e2 e3 e4 e5
    unfold encode_cognitive_input
    rw [e1, e2, e3, e4, e5]

theorem encode_record_fields_witness :
    encode_cognitive_input exInput1 =
      some [("work_interfere", 0),
            ("mental_health_consequence", 0),
            ("treatment", 0),
            ("benefits", 0),
            ("care_options", 0),
            ("daily_screen_time_min", 300),
            ("sleep_hours", 7),
            ("focus_score", 6),
            ("mood_score", 6),
            ("anxiety_level", 4),
            ("digital_wellbeing_score", 6)] :=
  encode_record_fields.2 exInput1 0 0 0 0 0
    (by decide) (by decide) (by decide) (by decide) (by decide)
